import Mathlib

/-!
Shallow embedding of `src/cockroach_db_connect/main_poc.py`.

The script is single-threaded and effect-driven: it checks a Kerberos
ticket cache on the filesystem, lazily starts a process-wide JVM, builds a
JDBC URL, calls the driver connect, and wraps the resulting connection in
a context manager that guarantees `close` on every exit path.

The embedding makes each external effect explicit:
  * the filesystem / driver / cursor behaviour is an `Env` record (and a
    `CursorBehavior` record) supplied to each function — the world the
    Python code observes;
  * the process-wide mutable flag `jpype.isJVMStarted()` is threaded as an
    explicit `Bool` state;
  * every observable side effect (log lines, JVM start, driver connect,
    connection close, cursor operations) is recorded in an ordered `Event`
    trace returned alongside the result;
  * a Python `raise` becomes the `PyResult.exn` constructor; a function
    whose body contains no raise and no fallible call returns a plain
    value, so inability to raise is structural.
-/

namespace CockroachPoc

/-- Module-level configuration constant `PG_JAR` from the source. -/
def PG_JAR : String := "I:\\configs\\dbeaver\\postgresql-42.3.3.jar"

/-- Module-level configuration constant `KRB5_CONF` from the source. -/
def KRB5_CONF : String := "I:\\configs\\dbeaver\\krb5.conf"

/-- Module-level configuration constant `JAAS_CONF` from the source. -/
def JAAS_CONF : String := "I:\\configs\\dbeaver\\jaas.conf"

/-- Module-level configuration constant `HOST` from the source. -/
def HOST : String := "P001-104990-104991.na.cockroachdb.jpmchase.net"

/-- Module-level configuration constant `PORT` from the source. -/
def PORT : Nat := 26300

/-- Module-level configuration constant `DB` from the source. -/
def DB : String := "defaultdb"

/-- Module-level configuration constant `SPN` from the source. -/
def SPN : String := "cockroachdb"

/-- Local constant `ticket_cache` inside `ensure_kerberos_ticket`. -/
def ticket_cache : String := "C:\\Users\\N123456\\krb5cc_N123456"

/-- A Python exception value, as observed by callers of this module. -/
inductive PyExn where
  /-- The `Exception` with message `No valid Kerberos ticket found` raised
      by `get_connection`. -/
  | noTicket
  /-- The opaque exception raised by `jaydebeapi.connect` when the driver
      connect fails; `msg` is its rendered message.  This is the
      `DriverError` of the specification's error taxonomy. -/
  | driverError (msg : String)
  /-- An exception raised by a cursor operation (`execute`, `fetchall`,
      reading `description`) inside `run_reconciliation_query`. -/
  | queryError (msg : String)
  deriving Repr, DecidableEq

/-- Rendering of an exception as interpolated into log messages. -/
def PyExn.msg : PyExn → String
  | .noTicket => "No valid Kerberos ticket found"
  | .driverError m => m
  | .queryError m => m

/-- Result of running a fragment of Python code: a value or a raised
    exception. -/
inductive PyResult (α : Type) where
  | ok (v : α)
  | exn (e : PyExn)
  deriving Repr, DecidableEq

/-- `true` exactly when the fragment raised. -/
def PyResult.isExn {α : Type} : PyResult α → Bool
  | .ok _ => false
  | .exn _ => true

/-- One observable side effect of the script, in program order. -/
inductive Event where
  | logWarning (msg : String)
  | logInfo (msg : String)
  | logError (msg : String)
  /-- `jpype.startJVM(...)` with its argument list. -/
  | jvmStart (args : List String)
  /-- `jaydebeapi.connect(driver, url, props, jar)` being invoked. -/
  | driverConnect (driver : String) (url : String)
      (props : List (String × String)) (jar : String)
  /-- `conn.close()` on the connection handle. -/
  | closeConn
  /-- `cur.execute(query, params)` / `cur.execute(query)`; `params = none`
      records the one-argument call, without a parameter argument. -/
  | cursorExecute (query : String) (params : Option (List String))
  /-- `cur.fetchall()`. -/
  | cursorFetchall
  /-- Reading `cur.description`. -/
  | cursorDescription
  /-- `cur.close()` on the cursor. -/
  | cursorClose
  deriving Repr, DecidableEq

/-- Number of JVM starts in a trace. -/
def countJvmStart (t : List Event) : Nat :=
  (t.filter fun e => match e with | .jvmStart _ => true | _ => false).length

/-- Number of driver connect invocations in a trace. -/
def countDriverConnect (t : List Event) : Nat :=
  (t.filter fun e => match e with | .driverConnect _ _ _ _ => true | _ => false).length

/-- Number of connection closes in a trace. -/
def countCloseConn (t : List Event) : Nat :=
  (t.filter fun e => match e with | .closeConn => true | _ => false).length

/-- Number of cursor closes in a trace. -/
def countCursorClose (t : List Event) : Nat :=
  (t.filter fun e => match e with | .cursorClose => true | _ => false).length

/-- The driver connect invocations of a trace, in order. -/
def connectCalls (t : List Event) : List Event :=
  t.filter fun e => match e with | .driverConnect _ _ _ _ => true | _ => false

/-- The cursor execute invocations of a trace, in order. -/
def executeCalls (t : List Event) : List Event :=
  t.filter fun e => match e with | .cursorExecute _ _ => true | _ => false

/--
`ensure_kerberos_ticket` from the source.  The only effect it observes is
whether `os.path.exists(ticket_cache)` holds, passed in as `ticketExists`;
it returns its boolean result together with the warning log lines it
emits.  The Python body contains no raise and no fallible call, which the
total return type `Bool × List Event` makes structural: this function
cannot raise.
-/
def ensure_kerberos_ticket (ticketExists : Bool) : Bool × List Event :=
  if !ticketExists then
    (false,
      [Event.logWarning ("Kerberos ticket cache not found at " ++ ticket_cache),
       Event.logWarning "Run \x27kinit\x27 to authenticate"])
  else
    (true, [])

/--
The argument list of the `jpype.startJVM` call in `get_connection`.
`defaultJVMPath` stands for the environment-dependent value of
`jpype.getDefaultJVMPath()`.
-/
def jvmStartArgs (defaultJVMPath : String) : List String :=
  [defaultJVMPath,
   "-Djava.class.path=" ++ PG_JAR,
   "-Djava.security.krb5.conf=" ++ KRB5_CONF,
   "-Djava.security.auth.login.config=" ++ JAAS_CONF,
   "-Djavax.security.auth.useSubjectCredsOnly=false",
   "-Duser.timezone=UTC"]

/--
The JDBC URL built in `get_connection`, with the module constants it
interpolates generalised to parameters.  The timeouts are the literals
`20` and `300` written directly in the source string.
-/
def jdbc_url_of (host : String) (port : Nat) (db spn : String) : String :=
  "jdbc:postgresql://" ++ host ++ ":" ++ toString port ++ "/" ++ db
    ++ "?sslmode=require"
    ++ "&kerberosServerName=" ++ spn
    ++ "&gssEncMode=disable"
    ++ "&connectTimeout=20"
    ++ "&socketTimeout=300"

/-- The JDBC URL exactly as `get_connection` builds it. -/
def jdbc_url : String := jdbc_url_of HOST PORT DB SPN

/-- The `props` dictionary literal in `get_connection`, in insertion
    order. -/
def connectionProps : List (String × String) :=
  [("jaasApplicationName", "pgjdbc"),
   ("ApplicationName", "Python-JDBC-Kerberos")]

/--
The external world one acquisition attempt observes: whether the ticket
cache file exists, the value of `jpype.getDefaultJVMPath()`, and the
outcome of the blocking `jaydebeapi.connect` call (a connection handle of
type `Conn`, or the message of the exception the driver raises).
-/
structure Env (Conn : Type) where
  ticketExists : Bool
  defaultJVMPath : String
  connectResult : Except String Conn

/--
`get_connection` from the source.  `jvmStarted` is the process-wide
`jpype.isJVMStarted()` flag on entry; the returned `Bool` is that flag on
exit.  Returns the Python result, the new flag and the ordered effect
trace.
-/
def get_connection {Conn : Type} (env : Env Conn) (jvmStarted : Bool) :
    PyResult Conn × Bool × List Event :=
  let (ticketOk, ticketEvs) := ensure_kerberos_ticket env.ticketExists
  if !ticketOk then
    (.exn .noTicket, jvmStarted, ticketEvs)
  else
    let (jvmStarted', jvmEvs) :=
      if !jvmStarted then
        (true,
         [Event.logInfo "Starting JVM with Kerberos configuration",
          Event.jvmStart (jvmStartArgs env.defaultJVMPath)])
      else
        (jvmStarted, [])
    let evs := ticketEvs ++ jvmEvs
      ++ [Event.logInfo ("Connecting to " ++ HOST ++ ":" ++ toString PORT ++ "/" ++ DB),
          Event.driverConnect "org.postgresql.Driver" jdbc_url connectionProps PG_JAR]
    match env.connectResult with
    | .ok c => (.ok c, jvmStarted', evs)
    | .error m => (.exn (.driverError m), jvmStarted', evs)

/--
The effect trace of a `get_connection` call that passes the ticket check:
an optional JVM start (when the flag `b` was unset) followed by the
connect log line and the driver connect invocation.
-/
def acquireTrace (path : String) (b : Bool) : List Event :=
  (if b then []
   else [Event.logInfo "Starting JVM with Kerberos configuration",
         Event.jvmStart (jvmStartArgs path)])
    ++ [Event.logInfo ("Connecting to " ++ HOST ++ ":" ++ toString PORT ++ "/" ++ DB),
        Event.driverConnect "org.postgresql.Driver" jdbc_url connectionProps PG_JAR]

/--
`cockroach_connection` from the source, a `@contextmanager`.  The caller's
`with` body is `body`, a function from the yielded connection to its own
result and effect trace.  The `try/except/finally` structure is made
explicit: on any exception (from acquisition or from the body) the error
is logged and re-raised; the `finally` closes the connection exactly when
`conn` is not `None`, i.e. when `get_connection` returned a handle.
-/
def cockroach_connection {Conn α : Type} (env : Env Conn) (jvmStarted : Bool)
    (body : Conn → PyResult α × List Event) :
    PyResult α × Bool × List Event :=
  match get_connection env jvmStarted with
  | (.exn e, jvm', evs) =>
      -- `conn` is still `None`: the except clause logs and re-raises and
      -- the finally clause skips the close.
      (.exn e, jvm', evs ++ [Event.logError ("Connection failed: " ++ e.msg)])
  | (.ok c, jvm', evs) =>
      let evs1 := evs ++ [Event.logInfo "Connection established successfully"]
      match body c with
      | (.ok v, bodyEvs) =>
          (.ok v, jvm',
            evs1 ++ bodyEvs
              ++ [Event.closeConn, Event.logInfo "Connection closed"])
      | (.exn e, bodyEvs) =>
          (.exn e, jvm',
            evs1 ++ bodyEvs
              ++ [Event.logError ("Connection failed: " ++ e.msg),
                  Event.closeConn, Event.logInfo "Connection closed"])

/--
Python truthiness of the `params` argument as tested by `if params:` in
`run_reconciliation_query`: `None` and the empty sequence are falsy, a
non-empty sequence is truthy.
-/
def pyTruthy (params : Option (List String)) : Bool :=
  match params with
  | none => false
  | some p => !p.isEmpty

/--
The behaviour of the cursor obtained from `conn.cursor()`, as observed by
`run_reconciliation_query`: each cursor operation either returns a value
or raises (rendered as the exception message).  A row is a tuple of
cells; a `description` entry is a DB-API tuple whose first element
(`desc[0]`) is the column name, modelled as that name paired with the
tuple's remaining elements.
-/
structure CursorBehavior where
  executeNoParams : String → Except String Unit
  executeWithParams : String → List String → Except String Unit
  fetchall : Except String (List (List String))
  description : Except String (List (String × List String))

/--
The body of the `with cockroach_connection() as conn:` block in
`run_reconciliation_query`: create a cursor, execute the query (with the
params exactly when `if params:` is truthy), fetch all rows, read the
column names from `cur.description`, close the cursor, return
`(columns, results)`.  An exception at any step propagates immediately,
skipping the remaining steps — in particular skipping `cur.close()`.
-/
def reconciliationBody (cb : CursorBehavior) (query : String)
    (params : Option (List String)) :
    PyResult (List String × List (List String)) × List Event :=
  let (execRes, execEvs) :=
    if pyTruthy params then
      (cb.executeWithParams query (params.getD []), [Event.cursorExecute query params])
    else
      (cb.executeNoParams query, [Event.cursorExecute query none])
  match execRes with
  | .error m => (.exn (.queryError m), execEvs)
  | .ok _ =>
    match cb.fetchall with
    | .error m => (.exn (.queryError m), execEvs ++ [Event.cursorFetchall])
    | .ok results =>
      match cb.description with
      | .error m =>
          (.exn (.queryError m),
            execEvs ++ [Event.cursorFetchall, Event.cursorDescription])
      | .ok descs =>
          let columns := descs.map Prod.fst
          (.ok (columns, results),
            execEvs ++ [Event.cursorFetchall, Event.cursorDescription,
                        Event.cursorClose])

/--
`run_reconciliation_query` from the source: the cursor body above run
inside the `cockroach_connection` scope.  The cursor behaviour `cb` is
part of the observed world, alongside `env` for the acquisition itself.
-/
def run_reconciliation_query {Conn : Type} (env : Env Conn) (jvmStarted : Bool)
    (cb : CursorBehavior) (query : String) (params : Option (List String)) :
    PyResult (List String × List (List String)) × Bool × List Event :=
  cockroach_connection env jvmStarted (fun _ => reconciliationBody cb query params)

/--
The process state reached by a sequence of sequential `get_connection`
calls (one per environment in `envs`), starting from JVM flag
`jvmStarted`; returns the final flag and the concatenated effect trace.
-/
def runSeq {Conn : Type} (envs : List (Env Conn)) (jvmStarted : Bool) :
    Bool × List Event :=
  match envs with
  | [] => (jvmStarted, [])
  | env :: rest =>
      let (_, jvm', evs) := get_connection env jvmStarted
      let (jvmF, evsRest) := runSeq rest jvm'
      (jvmF, evs ++ evsRest)

/--
Modelled from the spec: the wire target descriptor format of the external
interfaces section, assembled exactly as the spec words it —
protocol, host, port, database, then the query parameters `sslmode`,
`kerberosServerName`, `gssEncMode`, `connectTimeout`, `socketTimeout` in
that order — to be compared with `jdbc_url_of` from the source.
-/
def specWireDescriptor (protocol host : String) (port : Nat)
    (database principal : String) (connectSecs socketSecs : Nat) : String :=
  protocol ++ "://" ++ host ++ ":" ++ toString port ++ "/" ++ database
    ++ "?sslmode=require&kerberosServerName=" ++ principal
    ++ "&gssEncMode=disable&connectTimeout=" ++ toString connectSecs
    ++ "&socketTimeout=" ++ toString socketSecs

/-- A cursor behaviour where every operation succeeds, used to evaluate
    concrete runs. -/
def cbOkW : CursorBehavior :=
  ⟨fun _ => .ok (), fun _ _ => .ok (), .ok [["1"]], .ok [("col", [])]⟩

/-- A cursor behaviour whose execute raises, used to evaluate concrete
    failing runs. -/
def cbFailW : CursorBehavior :=
  ⟨fun _ => .error "boom", fun _ _ => .error "boom",
   .ok [["1"]], .ok [("col", [])]⟩

/-- A concrete environment where the ticket exists and the driver connect
    succeeds. -/
def envOkW : Env Nat := ⟨true, "jvm", Except.ok 7⟩

/-- A concrete environment where the ticket exists and the driver connect
    fails. -/
def envErrW : Env Nat := ⟨true, "jvm", Except.error "bad jar"⟩

/-- A concrete environment where the ticket cache is absent. -/
def envNoTicketW : Env Nat := ⟨false, "jvm", Except.ok 7⟩

/-! Helper lemmas about the embedding, shared by the claim theorems. -/

/-- With the ticket present and a succeeding driver, `get_connection`
    returns the handle, sets the JVM flag, and emits `acquireTrace`. -/
theorem get_connection_ok {Conn : Type} (path : String) (c : Conn) (b : Bool) :
    get_connection ⟨true, path, .ok c⟩ b = (.ok c, true, acquireTrace path b) := by
  cases b <;> rfl

/-- With the ticket present and a failing driver, `get_connection` raises
    the driver's exception after the same trace. -/
theorem get_connection_err {Conn : Type} (path m : String) (b : Bool) :
    get_connection (⟨true, path, .error m⟩ : Env Conn) b =
      (.exn (.driverError m), true, acquireTrace path b) := by
  cases b <;> rfl

/-- With the ticket absent, `get_connection` raises immediately, leaving
    the JVM flag unchanged and emitting only the two warnings. -/
theorem get_connection_noTicket {Conn : Type} (path : String)
    (cr : Except String Conn) (b : Bool) :
    get_connection ⟨false, path, cr⟩ b =
      (.exn .noTicket, b, (ensure_kerberos_ticket false).2) := by
  rfl

/-- The acquisition trace never closes a connection. -/
theorem countCloseConn_acquireTrace (path : String) (b : Bool) :
    countCloseConn (acquireTrace path b) = 0 := by
  cases b <;> rfl

/-- `countCloseConn` is additive over trace concatenation. -/
theorem countCloseConn_append (a b : List Event) :
    countCloseConn (a ++ b) = countCloseConn a + countCloseConn b := by
  simp [countCloseConn, List.filter_append]

/-- `countJvmStart` is additive over trace concatenation. -/
theorem countJvmStart_append (a b : List Event) :
    countJvmStart (a ++ b) = countJvmStart a + countJvmStart b := by
  simp [countJvmStart, List.filter_append]

/-- The JVM flag after `get_connection` and the number of starts the call
    performs, as functions of the entry flag and the ticket state. -/
theorem get_connection_jvm {Conn : Type} (env : Env Conn) (b : Bool) :
    (get_connection env b).2.1 = (b || env.ticketExists) ∧
    countJvmStart (get_connection env b).2.2 =
      (if b || !env.ticketExists then 0 else 1) := by
  rcases env with ⟨te, path, cr⟩
  cases te <;> cases b <;> rcases cr with m | c <;> exact ⟨rfl, rfl⟩

/-- A sequence of `get_connection` calls performs no JVM start when the
    flag is already set, and at most one start otherwise. -/
theorem runSeq_jvmStart_le {Conn : Type} (envs : List (Env Conn)) (b : Bool) :
    countJvmStart (runSeq envs b).2 ≤ (if b then 0 else 1) := by
  induction envs generalizing b with
  | nil => simp [runSeq, countJvmStart]
  | cons env rest ih =>
      simp only [runSeq]
      rcases hgc : get_connection env b with ⟨r, jvm', evs⟩
      have hj := get_connection_jvm env b
      rw [hgc] at hj
      simp only at hj
      obtain ⟨hj1, hj2⟩ := hj
      have hrest := ih jvm'
      rcases hr : runSeq rest jvm' with ⟨jvmF, evsRest⟩
      rw [hr] at hrest
      simp only [countJvmStart_append]
      cases b
      · cases hte : env.ticketExists
        · subst hj1
          rw [hte] at hj2 hrest
          simp at hj2 hrest ⊢
          omega
        · subst hj1
          rw [hte] at hj2 hrest
          simp at hj2 hrest ⊢
          omega
      · subst hj1
        simp at hj2 hrest ⊢
        omega

/-- The cursor body closes its cursor exactly on the success path, never
    closes the connection, and on success its last event is the cursor
    close. -/
theorem reconciliationBody_shape (cb : CursorBehavior) (q : String)
    (params : Option (List String)) :
    countCursorClose (reconciliationBody cb q params).2 =
      (if (reconciliationBody cb q params).1.isExn then 0 else 1) ∧
    countCloseConn (reconciliationBody cb q params).2 = 0 ∧
    ((reconciliationBody cb q params).1.isExn = false →
      (reconciliationBody cb q params).2.getLast? = some Event.cursorClose) := by
  unfold reconciliationBody
  cases hp : pyTruthy params
  · rcases he : cb.executeNoParams q with m | u <;>
      simp only [hp, if_false, Bool.false_eq_true, ite_false, he] <;>
      [skip; rcases hf : cb.fetchall with m2 | rows] <;>
      [skip; skip; rcases hd : cb.description with m3 | descs] <;>
      simp [countCursorClose, countCloseConn, PyResult.isExn, List.getLast?]
  · rcases he : cb.executeWithParams q (params.getD []) with m | u <;>
      simp only [hp, if_true, ite_true, he] <;>
      [skip; rcases hf : cb.fetchall with m2 | rows] <;>
      [skip; skip; rcases hd : cb.description with m3 | descs] <;>
      simp [countCursorClose, countCloseConn, PyResult.isExn, List.getLast?]

/-! Claim theorems. -/

/--
C1: for every execution of the `cockroach_connection` scope in which a
connection handle was successfully opened, `close` is called on that
handle exactly once before the scope exits, on every exit path — whether
the caller's body completes normally or raises.  The body is arbitrary,
constrained only to not close the scope's handle itself.
-/
theorem connection_closed_exactly_once {Conn α : Type} (env : Env Conn) (b : Bool)
    (body : Conn → PyResult α × List Event)
    (hopen : (get_connection env b).1.isExn = false)
    (hbody : ∀ c, countCloseConn (body c).2 = 0) :
    countCloseConn (cockroach_connection env b body).2.2 = 1 := by
  rcases env with ⟨te, path, cr⟩
  cases te
  case false =>
    rw [get_connection_noTicket] at hopen
    simp [PyResult.isExn] at hopen
  case true =>
    rcases cr with m | c
    · rw [get_connection_err] at hopen
      simp [PyResult.isExn] at hopen
    · have hgc := get_connection_ok path c b
      simp only [cockroach_connection, hgc]
      rcases hb : body c with ⟨br, bevs⟩
      have hbc := hbody c
      rw [hb] at hbc
      simp only [countCloseConn] at hbc
      cases br <;> cases b <;>
        simp [countCloseConn, acquireTrace, jvmStartArgs, List.filter_append, hbc]

/--
C1 witness: with the ticket present, a succeeding driver and a normally
completing body, the handle is opened and closed exactly once.
-/
theorem connection_closed_exactly_once_witness :
    (get_connection envOkW false).1.isExn = false ∧
    countCloseConn (cockroach_connection envOkW false
      (fun _ => (PyResult.ok 0, []))).2.2 = 1 :=
  ⟨rfl, connection_closed_exactly_once envOkW false (fun _ => (PyResult.ok 0, []))
    rfl (fun _ => rfl)⟩

/--
C2: over any sequence of more than one sequential acquisition in one
process (starting with the JVM not yet started), `jpype.startJVM` is
invoked at most once; and every call that finds the runtime already
started performs no start and leaves it started (a no-op reusing the
running JVM, whose configuration was fixed by the first start).
-/
theorem jvm_start_at_most_once {Conn : Type} (envs : List (Env Conn))
    (h : 1 < envs.length) :
    countJvmStart (runSeq envs false).2 ≤ 1 ∧
    (∀ env : Env Conn, countJvmStart (get_connection env true).2.2 = 0 ∧
      (get_connection env true).2.1 = true) := by
  refine ⟨?_, ?_⟩
  · simpa using runSeq_jvmStart_le envs false
  · intro env
    have hj := get_connection_jvm env true
    simp only [Bool.true_or, if_true, ite_true] at hj
    exact ⟨hj.2, hj.1⟩

/--
C2 witness: two sequential successful acquisitions start the JVM at most
once.
-/
theorem jvm_start_at_most_once_witness :
    1 < ([envOkW, envOkW] : List (Env Nat)).length ∧
    countJvmStart (runSeq [envOkW, envOkW] false).2 ≤ 1 :=
  ⟨by decide, (jvm_start_at_most_once [envOkW, envOkW] (by decide)).1⟩

/--
C3 counterexample: with the ticket cache absent the prechecker returns
false, yet `get_connection` raises `noTicket` and its trace contains no
JVM start and no driver connect attempt — refuting the claim that a false
precheck result still proceeds to runtime initialization and to the
driver connect attempt.
-/
theorem precheck_false_proceeds_counterexample :
    (ensure_kerberos_ticket false).1 = false ∧
    (get_connection (⟨false, "jvm", Except.ok 0⟩ : Env Nat) false).1 =
      .exn .noTicket ∧
    countJvmStart
      (get_connection (⟨false, "jvm", Except.ok 0⟩ : Env Nat) false).2.2 = 0 ∧
    countDriverConnect
      (get_connection (⟨false, "jvm", Except.ok 0⟩ : Env Nat) false).2.2 = 0 :=
  ⟨rfl, rfl, rfl, rfl⟩

/--
C3 (amended): for every acquisition attempt in which the credential
prechecker returns false, `get_connection` raises
`Exception("No valid Kerberos ticket found")` and the flow aborts before
runtime initialization and before any driver connect attempt.
-/
theorem precheck_false_raises_before_connect {Conn : Type} (env : Env Conn)
    (b : Bool) (h : env.ticketExists = false) :
    (get_connection env b).1 = .exn .noTicket ∧
    countJvmStart (get_connection env b).2.2 = 0 ∧
    countDriverConnect (get_connection env b).2.2 = 0 := by
  rcases env with ⟨te, path, cr⟩
  subst h
  rw [get_connection_noTicket]
  exact ⟨rfl, rfl, rfl⟩

/--
C3 (amended) witness: at a concrete environment with the ticket absent,
`get_connection` raises `noTicket`.
-/
theorem precheck_false_raises_before_connect_witness :
    envNoTicketW.ticketExists = false ∧
    (get_connection envNoTicketW false).1 = .exn .noTicket :=
  ⟨rfl, (precheck_false_raises_before_connect envNoTicketW false rfl).1⟩

/--
C4: `ensure_kerberos_ticket` returns true exactly when the credential
cache artifact exists at the time of the check; when it returns false it
emits a warning naming the missing cache and a remediation hint to run
kinit; its total return type shows it never raises.
-/
theorem ensure_kerberos_ticket_contract (ticketExists : Bool) :
    (ensure_kerberos_ticket ticketExists).1 = ticketExists ∧
    (ensure_kerberos_ticket ticketExists).2 =
      (if ticketExists then []
       else [Event.logWarning
               ("Kerberos ticket cache not found at " ++ ticket_cache),
             Event.logWarning "Run \x27kinit\x27 to authenticate"]) := by
  cases ticketExists <;> exact ⟨rfl, rfl⟩

/--
C5: when the driver connect fails, the scope surfaces the driver's own
exception (the `DriverError` of the taxonomy, wrapping message `m`) to
the caller, after logging the failure; no close is performed since no
handle was opened, and the connect is attempted exactly once — the error
is neither swallowed nor retried.
-/
theorem connect_failure_surfaces_driver_error {Conn α : Type} (env : Env Conn)
    (b : Bool) (body : Conn → PyResult α × List Event) (m : String)
    (hticket : env.ticketExists = true)
    (hconn : env.connectResult = .error m) :
    (cockroach_connection env b body).1 = .exn (.driverError m) ∧
    countCloseConn (cockroach_connection env b body).2.2 = 0 ∧
    countDriverConnect (cockroach_connection env b body).2.2 = 1 ∧
    Event.logError ("Connection failed: " ++ m) ∈
      (cockroach_connection env b body).2.2 := by
  rcases env with ⟨te, path, cr⟩
  subst hticket
  subst hconn
  simp only [cockroach_connection, get_connection_err, PyExn.msg]
  refine ⟨?_, ?_, ?_, ?_⟩
  · trivial
  · cases b <;> rfl
  · cases b <;> rfl
  · cases b <;> simp [acquireTrace]

/--
C5 witness: at a concrete environment whose driver connect fails with
message `bad jar`, the scope surfaces `driverError "bad jar"`.
-/
theorem connect_failure_surfaces_driver_error_witness :
    envErrW.ticketExists = true ∧
    envErrW.connectResult = .error "bad jar" ∧
    (cockroach_connection envErrW false
      (fun _ => (PyResult.ok 0, []))).1 = .exn (.driverError "bad jar") :=
  ⟨rfl, rfl, (connect_failure_surfaces_driver_error envErrW false
    (fun _ => (PyResult.ok 0, [])) "bad jar" rfl rfl).1⟩

/--
C6: for every configuration, the wire target descriptor built by the
source (`jdbc_url_of`) is exactly the spec's format
(`specWireDescriptor`) with protocol `jdbc:postgresql`, the configured
host, port, database and principal substituted, the query parameters in
the specified order, and the configured timeout values 20 and 300
substituted.
-/
theorem wire_descriptor_format (host : String) (port : Nat) (db spn : String) :
    jdbc_url_of host port db spn =
      specWireDescriptor "jdbc:postgresql" host port db spn 20 300 := by
  apply String.ext
  simp [jdbc_url_of, specWireDescriptor, String.data_append,
    (show toString (20 : Nat) = "20" from rfl),
    (show toString (300 : Nat) = "300" from rfl)]

/--
C7: for every successful acquisition, the driver connect is invoked
exactly once, with exactly the four arguments: the driver class
identifier `org.postgresql.Driver`, the target descriptor `jdbc_url`, the
properties mapping whose keys are exactly `jaasApplicationName` and
`ApplicationName`, and the driver artifact location `PG_JAR`.
-/
theorem driver_invocation_contract {Conn : Type} (env : Env Conn) (b : Bool)
    (hok : (get_connection env b).1.isExn = false) :
    connectCalls (get_connection env b).2.2 =
      [Event.driverConnect "org.postgresql.Driver" jdbc_url connectionProps PG_JAR] ∧
    connectionProps.map Prod.fst = ["jaasApplicationName", "ApplicationName"] := by
  rcases env with ⟨te, path, cr⟩
  cases te
  case false =>
    rw [get_connection_noTicket] at hok
    simp [PyResult.isExn] at hok
  case true =>
    rcases cr with m | c
    · rw [get_connection_err] at hok
      simp [PyResult.isExn] at hok
    · constructor
      · rw [get_connection_ok]
        cases b <;> rfl
      · rfl

/--
C7 witness: at a concrete successful acquisition, the single driver
connect invocation carries the four contract arguments.
-/
theorem driver_invocation_contract_witness :
    (get_connection envOkW false).1.isExn = false ∧
    connectCalls (get_connection envOkW false).2.2 =
      [Event.driverConnect "org.postgresql.Driver" jdbc_url
        connectionProps PG_JAR] :=
  ⟨rfl, (driver_invocation_contract envOkW false rfl).1⟩

/--
C8 counterexample: supplying the empty parameter list (`some []`, which
is a supplied `params` argument distinct from the absent `none`) makes
`run_reconciliation_query` execute the query *without* a parameter
argument, because `if params:` is false for an empty sequence — refuting
the claim that whenever optional params are supplied the query is
executed with them.
-/
theorem empty_params_counterexample :
    (some ([] : List String)) ≠ (none : Option (List String)) ∧
    executeCalls (run_reconciliation_query
      (⟨true, "jvm", Except.ok 0⟩ : Env Nat) true
      ⟨fun _ => .ok (), fun _ _ => .ok (), .ok [["1"]], .ok [("c", [])]⟩
      "SELECT 1" (some [])).2.2 =
      [Event.cursorExecute "SELECT 1" none] := by
  exact ⟨by simp, rfl⟩

/--
C8 (amended): for every query execution via `run_reconciliation_query`
that completes without error, the result is the pair of the ordered
column names (the first element of each entry of the cursor's result
description) and the ordered fetched rows; the query is executed with the
supplied params exactly when they are non-empty, and without a parameter
argument when they are absent or empty.
-/
theorem reconciliation_query_result {Conn : Type} (env : Env Conn) (b : Bool)
    (cb : CursorBehavior) (q : String) (params : Option (List String))
    (c : Conn) (rows : List (List String)) (descs : List (String × List String))
    (hticket : env.ticketExists = true)
    (hconn : env.connectResult = .ok c)
    (hexec : (if pyTruthy params then cb.executeWithParams q (params.getD [])
              else cb.executeNoParams q) = .ok ())
    (hfetch : cb.fetchall = .ok rows)
    (hdesc : cb.description = .ok descs) :
    (run_reconciliation_query env b cb q params).1 =
      .ok (descs.map Prod.fst, rows) ∧
    executeCalls (run_reconciliation_query env b cb q params).2.2 =
      [Event.cursorExecute q (if pyTruthy params then params else none)] := by
  rcases env with ⟨te, path, cr⟩
  subst hticket
  subst hconn
  have hbody : reconciliationBody cb q params =
      (.ok (descs.map Prod.fst, rows),
        [Event.cursorExecute q (if pyTruthy params then params else none)]
          ++ [Event.cursorFetchall, Event.cursorDescription,
              Event.cursorClose]) := by
    cases hp : pyTruthy params
    · rw [hp] at hexec
      simp only [Bool.false_eq_true, if_false, ite_false] at hexec
      simp only [reconciliationBody, hp, Bool.false_eq_true, if_false,
        ite_false, hexec, hfetch, hdesc]
    · rw [hp] at hexec
      simp only [if_true, ite_true] at hexec
      simp only [reconciliationBody, hp, if_true, ite_true, hexec,
        hfetch, hdesc]
  simp only [run_reconciliation_query, cockroach_connection,
    get_connection_ok, hbody]
  constructor
  · trivial
  · cases b <;> rfl

/--
C8 (amended) witness: a concrete run with non-empty params yields the
column names and rows the cursor produced.
-/
theorem reconciliation_query_result_witness :
    (run_reconciliation_query envOkW false cbOkW "SELECT 1"
      (some ["p"])).1 = .ok (["col"], [["1"]]) :=
  (reconciliation_query_result envOkW false cbOkW "SELECT 1" (some ["p"]) 7
    [["1"]] [("col", [])] rfl rfl rfl rfl rfl).1

/--
C9: for every acquisition attempt in which the credential cache artifact
is absent, `get_connection` raises, the process-wide JVM flag is exactly
what it was on entry, and the trace contains no JVM start and no driver
connect — a failed precheck leaves the runtime state unchanged and
performs no network I/O.
-/
theorem missing_ticket_preserves_runtime {Conn : Type} (env : Env Conn)
    (b : Bool) (h : env.ticketExists = false) :
    (get_connection env b).1.isExn = true ∧
    (get_connection env b).2.1 = b ∧
    countJvmStart (get_connection env b).2.2 = 0 ∧
    countDriverConnect (get_connection env b).2.2 = 0 := by
  rcases env with ⟨te, path, cr⟩
  subst h
  rw [get_connection_noTicket]
  exact ⟨rfl, rfl, rfl, rfl⟩

/--
C9 witness: at a concrete environment with the ticket absent and the JVM
already started, the call raises and the flag stays started.
-/
theorem missing_ticket_preserves_runtime_witness :
    envNoTicketW.ticketExists = false ∧
    (get_connection envNoTicketW true).1.isExn = true ∧
    (get_connection envNoTicketW true).2.1 = true :=
  ⟨rfl, (missing_ticket_preserves_runtime envNoTicketW true rfl).1,
   (missing_ticket_preserves_runtime envNoTicketW true rfl).2.1⟩

/--
C10: when cursor execution, fetching or description reading raises inside
`run_reconciliation_query`, the exception propagates, the cursor is never
closed, yet the enclosing scope still closes the connection exactly once;
and for any cursor behaviour on which the body succeeds, the cursor is
closed exactly once, as the last event of the body — before the result
pair is returned.
-/
theorem query_failure_skips_cursor_close {Conn : Type} (env : Env Conn)
    (b : Bool) (cb : CursorBehavior) (q : String)
    (params : Option (List String)) (c : Conn)
    (hticket : env.ticketExists = true)
    (hconn : env.connectResult = .ok c)
    (hfail : (reconciliationBody cb q params).1.isExn = true) :
    (run_reconciliation_query env b cb q params).1.isExn = true ∧
    countCursorClose (run_reconciliation_query env b cb q params).2.2 = 0 ∧
    countCloseConn (run_reconciliation_query env b cb q params).2.2 = 1 ∧
    (∀ cb2 : CursorBehavior,
      (reconciliationBody cb2 q params).1.isExn = false →
      countCursorClose (run_reconciliation_query env b cb2 q params).2.2 = 1 ∧
      (reconciliationBody cb2 q params).2.getLast? = some Event.cursorClose) := by
  rcases env with ⟨te, path, cr⟩
  subst hticket
  subst hconn
  have key : ∀ cb3 : CursorBehavior,
      countCursorClose (run_reconciliation_query
          (⟨true, path, .ok c⟩ : Env Conn) b cb3 q params).2.2 =
        (if (reconciliationBody cb3 q params).1.isExn then 0 else 1) ∧
      countCloseConn (run_reconciliation_query
          (⟨true, path, .ok c⟩ : Env Conn) b cb3 q params).2.2 = 1 ∧
      (run_reconciliation_query
          (⟨true, path, .ok c⟩ : Env Conn) b cb3 q params).1.isExn =
        (reconciliationBody cb3 q params).1.isExn := by
    intro cb3
    have hs := reconciliationBody_shape cb3 q params
    rcases hb : reconciliationBody cb3 q params with ⟨br, bevs⟩
    rw [hb] at hs
    simp only [run_reconciliation_query, cockroach_connection,
      get_connection_ok, hb]
    obtain ⟨hs1, hs2, _⟩ := hs
    simp only [countCursorClose] at hs1
    simp only [countCloseConn] at hs2
    cases br <;> cases b <;>
      simp [countCursorClose, countCloseConn, acquireTrace, jvmStartArgs,
        List.filter_append, PyResult.isExn, hs1, hs2] at hs1 hs2 ⊢ <;>
      simp [hs1, hs2]
  refine ⟨?_, ?_, ?_, ?_⟩
  · rw [(key cb).2.2, hfail]
  · rw [(key cb).1, hfail]
    rfl
  · exact (key cb).2.1
  · intro cb2 hok
    refine ⟨?_, ?_⟩
    · rw [(key cb2).1, hok]
      rfl
    · have hs := reconciliationBody_shape cb2 q params
      exact hs.2.2 hok

/--
C10 witness: at a concrete run whose execute raises, the cursor is never
closed while the connection is closed exactly once.
-/
theorem query_failure_skips_cursor_close_witness :
    (reconciliationBody cbFailW "SELECT 1" none).1.isExn = true ∧
    countCursorClose (run_reconciliation_query envOkW false cbFailW
      "SELECT 1" none).2.2 = 0 ∧
    countCloseConn (run_reconciliation_query envOkW false cbFailW
      "SELECT 1" none).2.2 = 1 :=
  ⟨rfl, (query_failure_skips_cursor_close envOkW false cbFailW
      "SELECT 1" none 7 rfl rfl rfl).2.1,
   (query_failure_skips_cursor_close envOkW false cbFailW
      "SELECT 1" none 7 rfl rfl rfl).2.2.1⟩

end CockroachPoc
